import Mathlib

/-!
# NumPy C-API import shim (`src/bindings/python/numpy_import.cpp`)

A shallow embedding of the one-time NumPy C-API initialisation of the Python
bindings.  The C++ globals become fields of `State`, the CPython / NumPy
runtime the code talks to becomes `Env`, and the preprocessor constants of
the NumPy headers the file is compiled against become `Build`.
Pointers are natural numbers, `0` being `nullptr`.  `unsigned int` values are
natural numbers reduced modulo `2 ^ 32`; `static_cast<int>` is `toInt32`.
Reference counting (`Py_DECREF`) is not modelled.
-/

namespace NumpyImport

/-! ## Data model -/

/-- Python exception classes: the built-in ones that occur in the file or in its
environment, and any class derived from one of them. -/
inductive ExcType where
  | Exception
  | ImportError
  | ModuleNotFoundError
  | AttributeError
  | RuntimeError
  | TypeError
  | ValueError
  | Subclass (name : String) (base : ExcType)
  deriving DecidableEq

/-- Python's subclass test between exception classes: a class is a subclass of itself,
of its base and of the bases of its base.  Among the built-in classes,
`ModuleNotFoundError` derives from `ImportError`, and every class from `Exception`. -/
def ExcType.isSubclassOf : ExcType → ExcType → Bool
  | .Subclass name base, t => decide (ExcType.Subclass name base = t) || base.isSubclassOf t
  | .ModuleNotFoundError, t =>
    decide (t = .ModuleNotFoundError) || decide (t = .ImportError) || decide (t = .Exception)
  | .Exception, t => decide (t = .Exception)
  | e, t => decide (e = t) || decide (t = .Exception)

/-- A raised Python exception: its class, the message (for `PyErr_Format` the
format string) and the format arguments. -/
structure PyErr where
  type : ExcType
  msg : String
  args : List Int
  deriving DecidableEq

/-- Python objects as far as the importer inspects them: an exact `PyCapsule`
(with the pointer `PyCapsule_GetPointer(c, nullptr)` yields, `0` when that call
yields `NULL`) or anything else. -/
inductive PyObject where
  | capsule (pointer : Nat)
  | other
  deriving DecidableEq

/-- An imported module: attribute lookup either yields an object or raises. -/
structure PyModule where
  getattr : String → Except PyErr PyObject

/-- The host runtime.  `PyImport_ImportModule` answers by module name.  The three
`PyArray_Get*` entries are reached through the function table, so they are
functions of the table pointer stored in `EIGENPY_ARRAY_API`. -/
structure Env where
  PyImport_ImportModule : String → Except PyErr PyModule
  PyArray_GetNDArrayCVersion : Nat → Nat
  PyArray_GetNDArrayCFeatureVersion : Nat → Nat
  PyArray_GetEndianness : Nat → Int

/-- Compile-time constants taken from the Python and NumPy headers (not part of
the file): the two `sizeof` values, the three version constants (non-negative
`int` literals) and `NPY_BYTE_ORDER`. -/
structure Build where
  sizeof_Py_ssize_t : Nat
  sizeof_Py_intptr_t : Nat
  NPY_VERSION : Nat
  NPY_2_0_API_VERSION : Nat
  NPY_FEATURE_VERSION : Nat
  NPY_BYTE_ORDER : Nat

/-- Process-wide state: the three globals of the file (lines 24-26), the Python
error indicator, what `PyErr_Print` wrote to the diagnostic stream, and whether
the function-local static of `pinocchio_numpy_init` has been constructed. -/
structure State where
  EIGENPY_ARRAY_API : Nat
  EIGENPY_ARRAY_APIPyArray_RUNTIME_VERSION : Int
  EIGENPY_UFUNC_API : Nat
  err : Option PyErr
  diagnostics : List PyErr
  eigenpy_numpy_initializer : Bool

/-- The state at program start: lines 24-26, no error, static not constructed. -/
def State.initial : State :=
  { EIGENPY_ARRAY_API := 0
    EIGENPY_ARRAY_APIPyArray_RUNTIME_VERSION := 0
    EIGENPY_UFUNC_API := 0
    err := none
    diagnostics := []
    eigenpy_numpy_initializer := false }

/-- How a `void` C++ function ends: it returns, or it throws `std::runtime_error`. -/
inductive Outcome where
  | returned
  | threw (what : String)
  deriving DecidableEq

/-! ## Header constants -/

/-- Value of `NPY_LITTLE_ENDIAN` in NumPy's `npy_endian.h`. -/
def NPY_LITTLE_ENDIAN : Nat := 1234

/-- Value of `NPY_BIG_ENDIAN` in NumPy's `npy_endian.h`. -/
def NPY_BIG_ENDIAN : Nat := 4321

/-- First enumerator of NumPy's CPU endianness enumeration. -/
def NPY_CPU_UNKNOWN_ENDIAN : Int := 0

/-- Second enumerator of NumPy's CPU endianness enumeration. -/
def NPY_CPU_LITTLE : Int := 1

/-- Third enumerator of NumPy's CPU endianness enumeration. -/
def NPY_CPU_BIG : Int := 2

/-! ## Machine integers -/

/-- Conversion to `unsigned int`. -/
def toUInt32 (n : Nat) : Nat := n % 2 ^ 32

/-- The conversion `static_cast<int>` of an unsigned value (two's complement). -/
def toInt32 (n : Nat) : Int :=
  if n % 2 ^ 32 < 2 ^ 31 then ((n % 2 ^ 32 : Nat) : Int) else ((n % 2 ^ 32 : Nat) : Int) - 2 ^ 32

/-! ## CPython error indicator -/

/-- Effect of `PyErr_Clear()`. -/
def PyErr_Clear (s : State) : State := { s with err := none }

/-- Effect of `PyErr_SetString(type, message)`. -/
def PyErr_SetString (t : ExcType) (m : String) (s : State) : State :=
  { s with err := some ⟨t, m, []⟩ }

/-- Effect of `PyErr_Format(type, format, args...)`; the message is kept as format
string plus arguments. -/
def PyErr_Format (t : ExcType) (fmt : String) (args : List Int) (s : State) : State :=
  { s with err := some ⟨t, fmt, args⟩ }

/-- Result of `PyErr_ExceptionMatches(exc)`: an exception is pending and its class is
`exc` or a subclass of it. -/
def PyErr_ExceptionMatches (t : ExcType) (s : State) : Bool :=
  match s.err with
  | some e => e.type.isSubclassOf t
  | none => false

/-- Effect of `PyErr_Print()`: the pending exception goes to the diagnostic stream
and the indicator is cleared. -/
def PyErr_Print (s : State) : State :=
  match s.err with
  | some e => { s with err := none, diagnostics := s.diagnostics ++ [e] }
  | none => s

/-- Call of `PyImport_ImportModule(name)`: the module, or `NULL` with the
exception of the failed import pending. -/
def PyImport_ImportModule (env : Env) (name : String) (s : State) : Option PyModule × State :=
  match env.PyImport_ImportModule name with
  | .ok m => (some m, s)
  | .error e => (none, { s with err := some e })

/-- Call of `PyObject_GetAttrString(o, name)`: the attribute, or `NULL` with the
exception of the failed lookup pending. -/
def PyObject_GetAttrString (o : PyModule) (name : String) (s : State) : Option PyObject × State :=
  match o.getattr name with
  | .ok v => (some v, s)
  | .error e => (none, { s with err := some e })

/-- Result of `PyCapsule_CheckExact(o)`. -/
def PyCapsule_CheckExact : PyObject → Bool
  | .capsule _ => true
  | .other => false

/-- Result of `PyCapsule_GetPointer(o, nullptr)`. -/
def PyCapsule_GetPointer : PyObject → Nat
  | .capsule p => p
  | .other => 0

/-! ## Calls through the array function table -/

/-- The macro `PyArray_GetNDArrayCVersion()`: an `unsigned int` read through the
table `EIGENPY_ARRAY_API` points to. -/
def PyArray_GetNDArrayCVersion (env : Env) (s : State) : Nat :=
  toUInt32 (env.PyArray_GetNDArrayCVersion s.EIGENPY_ARRAY_API)

/-- The macro `PyArray_GetNDArrayCFeatureVersion()`, read through the table. -/
def PyArray_GetNDArrayCFeatureVersion (env : Env) (s : State) : Nat :=
  toUInt32 (env.PyArray_GetNDArrayCFeatureVersion s.EIGENPY_ARRAY_API)

/-- The macro `PyArray_GetEndianness()`, read through the table. -/
def PyArray_GetEndianness (env : Env) (s : State) : Int :=
  env.PyArray_GetEndianness s.EIGENPY_ARRAY_API

/-! ## Error values raised by the file -/

/-- Line 63. -/
def arrayNotCapsuleError : PyErr :=
  ⟨.RuntimeError, "_ARRAY_API is not PyCapsule object", []⟩

/-- Line 71. -/
def arrayNullError : PyErr :=
  ⟨.RuntimeError, "_ARRAY_API is NULL pointer", []⟩

/-- Lines 77-79. -/
def pointerWidthError : PyErr :=
  ⟨.RuntimeError,
    "module compiled against NumPy 2.0 but running on NumPy 1.x. " ++
    "This is unsupported when sizeof(size_t) != sizeof(intptr_t).", []⟩

/-- Lines 84-87. -/
def abiMismatchError (b : Build) (runtime : Nat) : PyErr :=
  ⟨.RuntimeError,
    "module compiled against ABI version 0x%x but this NumPy exposes 0x%x",
    [toInt32 b.NPY_VERSION, toInt32 runtime]⟩

/-- Lines 94-97. -/
def featureVersionError (b : Build) (runtime : Int) : PyErr :=
  ⟨.RuntimeError,
    "module compiled against NumPy C-API version 0x%x but runtime is 0x%x",
    [toInt32 b.NPY_FEATURE_VERSION, runtime]⟩

/-- Lines 103-104. -/
def unknownEndianError : PyErr :=
  ⟨.RuntimeError, "FATAL: module compiled as unknown endian", []⟩

/-- Lines 109-111. -/
def bigEndianError : PyErr :=
  ⟨.RuntimeError,
    "FATAL: module compiled as big endian, but detected " ++
    "different endianness at runtime", []⟩

/-- Lines 116-118. -/
def littleEndianError : PyErr :=
  ⟨.RuntimeError,
    "FATAL: module compiled as little endian, but detected " ++
    "different endianness at runtime", []⟩

/-- Lines 133-134. -/
def ufuncImportError : PyErr :=
  ⟨.ImportError, "_multiarray_umath failed to import for ufunc API", []⟩

/-- Line 141. -/
def ufuncAttributeError : PyErr :=
  ⟨.AttributeError, "_UFUNC_API not found", []⟩

/-- Line 146. -/
def ufuncNotCapsuleError : PyErr :=
  ⟨.RuntimeError, "_UFUNC_API is not PyCapsule object", []⟩

/-- Line 154. -/
def ufuncNullError : PyErr :=
  ⟨.RuntimeError, "_UFUNC_API is NULL pointer", []⟩

/-- Raise an already built exception value (`PyErr_SetString` / `PyErr_Format`). -/
def raise (e : PyErr) (s : State) : State :=
  PyErr_Format e.type e.msg e.args s

/-! ## The functions of the file -/

/-- `ImportNumpyModule` (lines 37-44). -/
def ImportNumpyModule (env : Env) (s : State) : Option PyModule × State :=
  match PyImport_ImportModule env "numpy._core._multiarray_umath" s with
  | (none, s1) =>
    if PyErr_ExceptionMatches .ModuleNotFoundError s1 then
      PyImport_ImportModule env "numpy.core._multiarray_umath" (PyErr_Clear s1)
    else (none, s1)
  | (some numpy, s1) => (some numpy, s1)

/-- The endianness test of lines 101-123, after the pointer has been stored. -/
def checkEndianness (b : Build) (env : Env) (s : State) : Int × State :=
  let endianness := PyArray_GetEndianness env s
  if endianness = NPY_CPU_UNKNOWN_ENDIAN then (-1, raise unknownEndianError s)
  else if b.NPY_BYTE_ORDER = NPY_BIG_ENDIAN then
    if endianness ≠ NPY_CPU_BIG then (-1, raise bigEndianError s) else (0, s)
  else if b.NPY_BYTE_ORDER = NPY_LITTLE_ENDIAN then
    if endianness ≠ NPY_CPU_LITTLE then (-1, raise littleEndianError s) else (0, s)
  else (0, s)

/-- The compatibility tests of lines 75-123, after the pointer has been stored. -/
def checkCompatibility (b : Build) (env : Env) (s : State) : Int × State :=
  if b.sizeof_Py_ssize_t ≠ b.sizeof_Py_intptr_t ∧
      PyArray_GetNDArrayCVersion env s < toUInt32 b.NPY_2_0_API_VERSION then
    (-1, raise pointerWidthError s)
  else if toUInt32 b.NPY_VERSION < PyArray_GetNDArrayCVersion env s then
    (-1, raise (abiMismatchError b (PyArray_GetNDArrayCVersion env s)) s)
  else
    let s1 := { s with EIGENPY_ARRAY_APIPyArray_RUNTIME_VERSION :=
                  toInt32 (PyArray_GetNDArrayCFeatureVersion env s) }
    if (b.NPY_FEATURE_VERSION : Int) > s1.EIGENPY_ARRAY_APIPyArray_RUNTIME_VERSION then
      (-1, raise (featureVersionError b s1.EIGENPY_ARRAY_APIPyArray_RUNTIME_VERSION) s1)
    else checkEndianness b env s1

/-- `ImportMultiarrayAPI` (lines 46-124). -/
def ImportMultiarrayAPI (b : Build) (env : Env) (s : State) : Int × State :=
  if s.EIGENPY_ARRAY_API ≠ 0 then (0, s)
  else
    match ImportNumpyModule env s with
    | (none, s1) => (-1, s1)
    | (some numpy, s1) =>
      match PyObject_GetAttrString numpy "_ARRAY_API" s1 with
      | (none, s2) => (-1, s2)
      | (some c_api, s2) =>
        if !PyCapsule_CheckExact c_api then (-1, raise arrayNotCapsuleError s2)
        else
          let s3 := { s2 with EIGENPY_ARRAY_API := PyCapsule_GetPointer c_api }
          if s3.EIGENPY_ARRAY_API = 0 then (-1, raise arrayNullError s3)
          else checkCompatibility b env s3

/-- `ImportUfuncAPI` (lines 126-159). -/
def ImportUfuncAPI (env : Env) (s : State) : Int × State :=
  if s.EIGENPY_UFUNC_API ≠ 0 then (0, s)
  else
    match ImportNumpyModule env s with
    | (none, s1) => (-1, raise ufuncImportError s1)
    | (some numpy, s1) =>
      match PyObject_GetAttrString numpy "_UFUNC_API" s1 with
      | (none, s2) => (-1, raise ufuncAttributeError s2)
      | (some c_api, s2) =>
        if !PyCapsule_CheckExact c_api then (-1, raise ufuncNotCapsuleError s2)
        else
          let s3 := { s2 with EIGENPY_UFUNC_API := PyCapsule_GetPointer c_api }
          if s3.EIGENPY_UFUNC_API = 0 then (-1, raise ufuncNullError s3)
          else (0, s3)

/-- The call `eigenpy::import_numpy()` (line 171).  The function belongs to the
eigenpy library; it is declared `void`, and is taken to return normally and to
leave the globals of this file as they are. -/
def import_numpy (s : State) : State := s

/-- Constructor of `EigenPyNumpyInitializer` (lines 162-172). -/
def EigenPyNumpyInitializer (b : Build) (env : Env) (s : State) : Outcome × State :=
  match ImportMultiarrayAPI b env s with
  | (r1, s1) =>
    if r1 < 0 then (.threw "Failed to initialize NumPy C-API", PyErr_Print s1)
    else
      match ImportUfuncAPI env s1 with
      | (r2, s2) =>
        if r2 < 0 then (.threw "Failed to initialize NumPy ufunc C-API", PyErr_Print s2)
        else (.returned, import_numpy s2)

/-- `pinocchio_numpy_init` (lines 177-179): a function-local static.  The
constructor runs when the static has not been constructed; when it throws, the
static stays unconstructed and the next call runs the constructor again. -/
def pinocchio_numpy_init (b : Build) (env : Env) (s : State) : Outcome × State :=
  if s.eigenpy_numpy_initializer then (.returned, s)
  else
    match EigenPyNumpyInitializer b env s with
    | (.returned, s1) => (.returned, { s1 with eigenpy_numpy_initializer := true })
    | (.threw what, s1) => (.threw what, s1)

/-! ## The conditions of the four checks

Each compatibility check as a condition on the table pointer `p` taken from the
capsule.  They are compared with the code in the theorems. -/

/-- Check (1) as line 75-76 tests it: `sizeof(Py_ssize_t)` differs from
`sizeof(Py_intptr_t)` and the ABI version the runtime reports is below the constant
`NPY_2_0_API_VERSION`. -/
def pointerWidthFails (b : Build) (env : Env) (p : Nat) : Prop :=
  b.sizeof_Py_ssize_t ≠ b.sizeof_Py_intptr_t ∧
    toUInt32 (env.PyArray_GetNDArrayCVersion p) < toUInt32 b.NPY_2_0_API_VERSION

instance (b : Build) (env : Env) (p : Nat) : Decidable (pointerWidthFails b env p) := by
  unfold pointerWidthFails; infer_instance

/-- The ABI version of NumPy 2.0 (`NPY_VERSION` in its headers); NumPy 1.x reports
`0x01000009`.  The constant `NPY_2_0_API_VERSION` is not an ABI version but the
feature version of NumPy 2.0, `0x12` in the headers. -/
def NPY_2_0_ABI_VERSION : Nat := 0x02000000

/-- Check (1) as worded: `sizeof(Py_ssize_t)` differs from `sizeof(Py_intptr_t)` and the
runtime ABI version is below the NumPy 2.0 version, the case the message of line 78
names (compiled against NumPy 2.0, running on NumPy 1.x). -/
def pointerWidthUnsupported (b : Build) (env : Env) (p : Nat) : Prop :=
  b.sizeof_Py_ssize_t ≠ b.sizeof_Py_intptr_t ∧
    toUInt32 (env.PyArray_GetNDArrayCVersion p) < NPY_2_0_ABI_VERSION

instance (b : Build) (env : Env) (p : Nat) : Decidable (pointerWidthUnsupported b env p) := by
  unfold pointerWidthUnsupported; infer_instance

/-- Check (2): `NPY_VERSION` is below the ABI version the runtime reports. -/
def abiFails (b : Build) (env : Env) (p : Nat) : Prop :=
  toUInt32 b.NPY_VERSION < toUInt32 (env.PyArray_GetNDArrayCVersion p)

instance (b : Build) (env : Env) (p : Nat) : Decidable (abiFails b env p) := by
  unfold abiFails; infer_instance

/-- The runtime feature version as the file stores it: the reported `unsigned int`
converted to `int`. -/
def runtimeFeatureVersion (env : Env) (p : Nat) : Int :=
  toInt32 (toUInt32 (env.PyArray_GetNDArrayCFeatureVersion p))

/-- Check (3): the compiled feature version exceeds the runtime feature version. -/
def featureFails (b : Build) (env : Env) (p : Nat) : Prop :=
  (b.NPY_FEATURE_VERSION : Int) > runtimeFeatureVersion env p

instance (b : Build) (env : Env) (p : Nat) : Decidable (featureFails b env p) := by
  unfold featureFails; infer_instance

/-- The endianness value that stands for the compile-time byte order. -/
def targetEndian (b : Build) : Int :=
  if b.NPY_BYTE_ORDER = NPY_BIG_ENDIAN then NPY_CPU_BIG else NPY_CPU_LITTLE

/-- Check (4): the runtime endianness is unknown or differs from the compile-time
byte order. -/
def endianFails (b : Build) (env : Env) (p : Nat) : Prop :=
  env.PyArray_GetEndianness p = NPY_CPU_UNKNOWN_ENDIAN ∨
    env.PyArray_GetEndianness p ≠ targetEndian b

instance (b : Build) (env : Env) (p : Nat) : Decidable (endianFails b env p) := by
  unfold endianFails; infer_instance

/-- The endianness error that belongs to a failing check (4). -/
def endianError (b : Build) (env : Env) (p : Nat) : PyErr :=
  if env.PyArray_GetEndianness p = NPY_CPU_UNKNOWN_ENDIAN then unknownEndianError
  else if b.NPY_BYTE_ORDER = NPY_BIG_ENDIAN then bigEndianError
  else littleEndianError

/-! ## Concrete inputs -/

/-- A module exposing both capsules, with non-null table pointers. -/
def numpyModule : PyModule :=
  { getattr := fun name =>
      if name = "_ARRAY_API" then .ok (.capsule 4096)
      else if name = "_UFUNC_API" then .ok (.capsule 8192)
      else .error ⟨.AttributeError, name, []⟩ }

/-- A module whose `_ARRAY_API` attribute is not a capsule. -/
def brokenModule : PyModule :=
  { getattr := fun name =>
      if name = "_ARRAY_API" then .ok .other
      else if name = "_UFUNC_API" then .ok (.capsule 8192)
      else .error ⟨.AttributeError, name, []⟩ }

/-- A NumPy 2 runtime: module under the primary name, ABI `0x02000000`, feature
version `0x13`, little endian. -/
def numpy2Env : Env :=
  { PyImport_ImportModule := fun name =>
      if name = "numpy._core._multiarray_umath" then .ok numpyModule
      else .error ⟨.ModuleNotFoundError, name, []⟩
    PyArray_GetNDArrayCVersion := fun _ => 0x02000000
    PyArray_GetNDArrayCFeatureVersion := fun _ => 0x13
    PyArray_GetEndianness := fun _ => 1 }

/-- A NumPy 1 runtime: module under the legacy name only, ABI `0x01000009`, feature
version `0x11`, little endian. -/
def numpy1Env : Env :=
  { PyImport_ImportModule := fun name =>
      if name = "numpy.core._multiarray_umath" then .ok numpyModule
      else .error ⟨.ModuleNotFoundError, name, []⟩
    PyArray_GetNDArrayCVersion := fun _ => 0x01000009
    PyArray_GetNDArrayCFeatureVersion := fun _ => 0x11
    PyArray_GetEndianness := fun _ => 1 }

/-- The NumPy 2 runtime reporting big endian. -/
def bigEndianEnv : Env :=
  { PyImport_ImportModule := fun name =>
      if name = "numpy._core._multiarray_umath" then .ok numpyModule
      else .error ⟨.ModuleNotFoundError, name, []⟩
    PyArray_GetNDArrayCVersion := fun _ => 0x02000000
    PyArray_GetNDArrayCFeatureVersion := fun _ => 0x13
    PyArray_GetEndianness := fun _ => 2 }

/-- The NumPy 2 runtime whose module carries a non-capsule `_ARRAY_API`. -/
def brokenEnv : Env :=
  { PyImport_ImportModule := fun name =>
      if name = "numpy._core._multiarray_umath" then .ok brokenModule
      else .error ⟨.ModuleNotFoundError, name, []⟩
    PyArray_GetNDArrayCVersion := fun _ => 0x02000000
    PyArray_GetNDArrayCFeatureVersion := fun _ => 0x13
    PyArray_GetEndianness := fun _ => 1 }

/-- A NumPy 1 runtime whose failed primary import raises a class derived from
`ModuleNotFoundError`. -/
def derivedErrorEnv : Env :=
  { PyImport_ImportModule := fun name =>
      if name = "numpy.core._multiarray_umath" then .ok numpyModule
      else .error ⟨.Subclass "PackageNotFoundError" .ModuleNotFoundError, name, []⟩
    PyArray_GetNDArrayCVersion := fun _ => 0x01000009
    PyArray_GetNDArrayCFeatureVersion := fun _ => 0x11
    PyArray_GetEndianness := fun _ => 1 }

/-- A runtime in which the primary import raises a class derived from
`ModuleNotFoundError` and the legacy import raises `ImportError`. -/
def derivedErrorNoNumpyEnv : Env :=
  { PyImport_ImportModule := fun name =>
      if name = "numpy._core._multiarray_umath" then
        .error ⟨.Subclass "PackageNotFoundError" .ModuleNotFoundError, name, []⟩
      else .error ⟨.ImportError, name, []⟩
    PyArray_GetNDArrayCVersion := fun _ => 0x01000009
    PyArray_GetNDArrayCFeatureVersion := fun _ => 0x11
    PyArray_GetEndianness := fun _ => 1 }

/-- A runtime without NumPy: every import raises `ModuleNotFoundError`. -/
def noNumpyEnv : Env :=
  { PyImport_ImportModule := fun name => .error ⟨.ModuleNotFoundError, name, []⟩
    PyArray_GetNDArrayCVersion := fun _ => 0x02000000
    PyArray_GetNDArrayCFeatureVersion := fun _ => 0x13
    PyArray_GetEndianness := fun _ => 1 }

/-- A 64-bit little-endian build against NumPy 2 headers. -/
def buildNumpy2 : Build :=
  { sizeof_Py_ssize_t := 8
    sizeof_Py_intptr_t := 8
    NPY_VERSION := 0x02000000
    NPY_2_0_API_VERSION := 0x12
    NPY_FEATURE_VERSION := 0x0e
    NPY_BYTE_ORDER := 1234 }

/-- A little-endian build against NumPy 2 headers on a platform where
`sizeof(Py_ssize_t)` is 4 and `sizeof(Py_intptr_t)` is 8. -/
def oddWidthBuild : Build :=
  { sizeof_Py_ssize_t := 4
    sizeof_Py_intptr_t := 8
    NPY_VERSION := 0x02000000
    NPY_2_0_API_VERSION := 0x12
    NPY_FEATURE_VERSION := 0x0e
    NPY_BYTE_ORDER := 1234 }

/-- A 64-bit little-endian build whose ABI version is `0x01000009`. -/
def buildNumpy1 : Build :=
  { sizeof_Py_ssize_t := 8
    sizeof_Py_intptr_t := 8
    NPY_VERSION := 0x01000009
    NPY_2_0_API_VERSION := 0x12
    NPY_FEATURE_VERSION := 0x0e
    NPY_BYTE_ORDER := 1234 }

/-! ## Module resolution -/

theorem ImportNumpyModule_eq (env : Env) (s : State) :
    ImportNumpyModule env s =
      match env.PyImport_ImportModule "numpy._core._multiarray_umath" with
      | .ok m => (some m, s)
      | .error e1 =>
        if e1.type.isSubclassOf .ModuleNotFoundError = true then
          match env.PyImport_ImportModule "numpy.core._multiarray_umath" with
          | .ok m => (some m, { s with err := none })
          | .error e2 => (none, { s with err := some e2 })
        else (none, { s with err := some e1 }) := by
  unfold ImportNumpyModule PyImport_ImportModule
  cases h1 : env.PyImport_ImportModule "numpy._core._multiarray_umath" with
  | ok m => simp
  | error e1 =>
    by_cases hm : e1.type.isSubclassOf .ModuleNotFoundError = true
    · cases h2 : env.PyImport_ImportModule "numpy.core._multiarray_umath" <;>
        simp [PyErr_ExceptionMatches, PyErr_Clear, hm]
    · simp [PyErr_ExceptionMatches, hm]

theorem ImportNumpyModule_fst (env : Env) (s t : State) :
    (ImportNumpyModule env s).1 = (ImportNumpyModule env t).1 := by
  rw [ImportNumpyModule_eq, ImportNumpyModule_eq]
  cases env.PyImport_ImportModule "numpy._core._multiarray_umath" with
  | ok m => rfl
  | error e1 =>
    by_cases hm : e1.type.isSubclassOf .ModuleNotFoundError = true
    · cases env.PyImport_ImportModule "numpy.core._multiarray_umath" <;> simp [hm]
    · simp [hm]

theorem ImportNumpyModule_snd (env : Env) (s : State) :
    (ImportNumpyModule env s).2 = { s with err := (ImportNumpyModule env s).2.err } := by
  rw [ImportNumpyModule_eq]
  cases env.PyImport_ImportModule "numpy._core._multiarray_umath" with
  | ok m => rfl
  | error e1 =>
    by_cases hm : e1.type.isSubclassOf .ModuleNotFoundError = true
    · cases env.PyImport_ImportModule "numpy.core._multiarray_umath" <;> simp [hm]
    · simp [hm]

theorem ImportMultiarrayAPI_capsule (b : Build) (env : Env) (s : State) (m : PyModule) (p : Nat)
    (hs : s.EIGENPY_ARRAY_API = 0) (hm : (ImportNumpyModule env s).1 = some m)
    (hc : m.getattr "_ARRAY_API" = .ok (.capsule p)) (hp : p ≠ 0) :
    ImportMultiarrayAPI b env s =
      checkCompatibility b env { (ImportNumpyModule env s).2 with EIGENPY_ARRAY_API := p } := by
  unfold ImportMultiarrayAPI
  rcases hr : ImportNumpyModule env s with ⟨o, s1⟩
  rw [hr] at hm
  simp only at hm
  subst hm
  simp [hs, PyObject_GetAttrString, hc, PyCapsule_CheckExact, PyCapsule_GetPointer, hp]


/-! ## The compatibility checks -/

theorem checkCompatibility_width (b : Build) (env : Env) (t : State)
    (h1 : pointerWidthFails b env t.EIGENPY_ARRAY_API) :
    checkCompatibility b env t = (-1, raise pointerWidthError t) := by
  unfold pointerWidthFails at h1
  simp [checkCompatibility, PyArray_GetNDArrayCVersion, h1.1, h1.2]

theorem checkCompatibility_abi (b : Build) (env : Env) (t : State)
    (h1 : ¬ pointerWidthFails b env t.EIGENPY_ARRAY_API)
    (h2 : abiFails b env t.EIGENPY_ARRAY_API) :
    checkCompatibility b env t =
      (-1, raise (abiMismatchError b (toUInt32 (env.PyArray_GetNDArrayCVersion t.EIGENPY_ARRAY_API))) t) := by
  unfold pointerWidthFails at h1
  unfold abiFails at h2
  unfold checkCompatibility PyArray_GetNDArrayCVersion
  rw [if_neg h1, if_pos h2]

theorem checkCompatibility_feature (b : Build) (env : Env) (t : State)
    (h1 : ¬ pointerWidthFails b env t.EIGENPY_ARRAY_API)
    (h2 : ¬ abiFails b env t.EIGENPY_ARRAY_API)
    (h3 : featureFails b env t.EIGENPY_ARRAY_API) :
    checkCompatibility b env t =
      (-1, raise (featureVersionError b (runtimeFeatureVersion env t.EIGENPY_ARRAY_API))
        { t with EIGENPY_ARRAY_APIPyArray_RUNTIME_VERSION :=
                   runtimeFeatureVersion env t.EIGENPY_ARRAY_API }) := by
  unfold pointerWidthFails at h1
  unfold abiFails at h2
  unfold featureFails runtimeFeatureVersion at h3
  unfold checkCompatibility PyArray_GetNDArrayCVersion PyArray_GetNDArrayCFeatureVersion
  rw [if_neg h1, if_neg h2]
  simp only
  rw [if_pos h3]
  rfl

theorem checkCompatibility_endian (b : Build) (env : Env) (t : State)
    (h1 : ¬ pointerWidthFails b env t.EIGENPY_ARRAY_API)
    (h2 : ¬ abiFails b env t.EIGENPY_ARRAY_API)
    (h3 : ¬ featureFails b env t.EIGENPY_ARRAY_API) :
    checkCompatibility b env t =
      checkEndianness b env
        { t with EIGENPY_ARRAY_APIPyArray_RUNTIME_VERSION :=
                   runtimeFeatureVersion env t.EIGENPY_ARRAY_API } := by
  unfold pointerWidthFails at h1
  unfold abiFails at h2
  unfold featureFails runtimeFeatureVersion at h3
  unfold checkCompatibility PyArray_GetNDArrayCVersion PyArray_GetNDArrayCFeatureVersion
  rw [if_neg h1, if_neg h2]
  simp only
  rw [if_neg h3]
  rfl

theorem checkEndianness_fails (b : Build) (env : Env) (t : State)
    (hbo : b.NPY_BYTE_ORDER = NPY_BIG_ENDIAN ∨ b.NPY_BYTE_ORDER = NPY_LITTLE_ENDIAN)
    (h4 : endianFails b env t.EIGENPY_ARRAY_API) :
    checkEndianness b env t = (-1, raise (endianError b env t.EIGENPY_ARRAY_API) t) := by
  unfold endianFails targetEndian at h4
  unfold checkEndianness endianError PyArray_GetEndianness
  by_cases hu : env.PyArray_GetEndianness t.EIGENPY_ARRAY_API = NPY_CPU_UNKNOWN_ENDIAN
  · simp [hu]
  · rcases hbo with hb | hl
    · simp [hu, hb] at h4 ⊢
      exact h4
    · have hne : NPY_LITTLE_ENDIAN ≠ NPY_BIG_ENDIAN := by decide
      rw [hl] at h4 ⊢
      simp [hu, hne] at h4 ⊢
      exact h4

theorem checkEndianness_passes (b : Build) (env : Env) (t : State)
    (h4 : ¬ endianFails b env t.EIGENPY_ARRAY_API) :
    checkEndianness b env t = (0, t) := by
  unfold endianFails targetEndian at h4
  unfold checkEndianness PyArray_GetEndianness
  push_neg at h4
  obtain ⟨hu, ht⟩ := h4
  by_cases hb : b.NPY_BYTE_ORDER = NPY_BIG_ENDIAN
  · simp [hu, hb] at ht ⊢
    exact ht
  · by_cases hl : b.NPY_BYTE_ORDER = NPY_LITTLE_ENDIAN
    · have hne : NPY_LITTLE_ENDIAN ≠ NPY_BIG_ENDIAN := by decide
      rw [hl] at ht ⊢
      simp [hu, hne] at ht ⊢
      exact ht
    · simp [hu, hb, hl]


theorem toInt32_of_nonneg (n : Nat) (h : 0 ≤ toInt32 (toUInt32 n)) :
    toInt32 (toUInt32 n) = ((toUInt32 n : Nat) : Int) := by
  unfold toInt32 toUInt32 at *
  simp only [Nat.mod_mod] at *
  by_cases hlt : n % 2 ^ 32 < 2 ^ 31
  · rw [if_pos hlt]
  · rw [if_neg hlt] at h
    omega

theorem raise_err (e : PyErr) (s : State) : (raise e s).err = some e := rfl

/-! ## Frame conditions -/

theorem checkEndianness_frame (b : Build) (env : Env) (t : State) :
    (checkEndianness b env t).2.EIGENPY_ARRAY_API = t.EIGENPY_ARRAY_API ∧
    (checkEndianness b env t).2.EIGENPY_UFUNC_API = t.EIGENPY_UFUNC_API ∧
    (checkEndianness b env t).2.eigenpy_numpy_initializer = t.eigenpy_numpy_initializer ∧
    (checkEndianness b env t).2.diagnostics = t.diagnostics ∧
    ((checkEndianness b env t).1 = 0 ∨ (checkEndianness b env t).1 = -1) := by
  unfold checkEndianness
  simp only
  split_ifs <;> simp [raise, PyErr_Format]

theorem checkCompatibility_frame (b : Build) (env : Env) (t : State) :
    (checkCompatibility b env t).2.EIGENPY_ARRAY_API = t.EIGENPY_ARRAY_API ∧
    (checkCompatibility b env t).2.EIGENPY_UFUNC_API = t.EIGENPY_UFUNC_API ∧
    (checkCompatibility b env t).2.eigenpy_numpy_initializer = t.eigenpy_numpy_initializer ∧
    (checkCompatibility b env t).2.diagnostics = t.diagnostics ∧
    ((checkCompatibility b env t).1 = 0 ∨ (checkCompatibility b env t).1 = -1) := by
  by_cases h1 : pointerWidthFails b env t.EIGENPY_ARRAY_API
  · rw [checkCompatibility_width b env t h1]
    simp [raise, PyErr_Format]
  · by_cases h2 : abiFails b env t.EIGENPY_ARRAY_API
    · rw [checkCompatibility_abi b env t h1 h2]
      simp [raise, PyErr_Format]
    · by_cases h3 : featureFails b env t.EIGENPY_ARRAY_API
      · rw [checkCompatibility_feature b env t h1 h2 h3]
        simp [raise, PyErr_Format]
      · rw [checkCompatibility_endian b env t h1 h2 h3]
        obtain ⟨e1, e2, e3, e4, e5⟩ := checkEndianness_frame b env
          { t with EIGENPY_ARRAY_APIPyArray_RUNTIME_VERSION :=
                     runtimeFeatureVersion env t.EIGENPY_ARRAY_API }
        exact ⟨e1, e2, e3, e4, e5⟩

theorem ImportMultiarrayAPI_frame (b : Build) (env : Env) (s : State) :
    (ImportMultiarrayAPI b env s).2.EIGENPY_UFUNC_API = s.EIGENPY_UFUNC_API ∧
    (ImportMultiarrayAPI b env s).2.eigenpy_numpy_initializer = s.eigenpy_numpy_initializer ∧
    (ImportMultiarrayAPI b env s).2.diagnostics = s.diagnostics ∧
    ((ImportMultiarrayAPI b env s).1 = 0 ∨ (ImportMultiarrayAPI b env s).1 = -1) ∧
    ((ImportMultiarrayAPI b env s).1 = 0 → (ImportMultiarrayAPI b env s).2.EIGENPY_ARRAY_API ≠ 0) := by
  unfold ImportMultiarrayAPI
  by_cases h0 : s.EIGENPY_ARRAY_API ≠ 0
  · simp [h0]
  · rw [if_neg h0]
    have hsnd := ImportNumpyModule_snd env s
    rcases hr : ImportNumpyModule env s with ⟨o, s1⟩
    rw [hr] at hsnd
    simp only at hsnd
    cases o with
    | none => rw [hsnd]; simp
    | some numpy =>
      simp only [PyObject_GetAttrString]
      cases hg : numpy.getattr "_ARRAY_API" with
      | error e => rw [hsnd]; simp
      | ok c_api =>
        cases c_api with
        | other => rw [hsnd]; simp [PyCapsule_CheckExact, raise, PyErr_Format]
        | capsule p =>
          by_cases hp : p = 0
          · rw [hsnd]; simp [PyCapsule_CheckExact, PyCapsule_GetPointer, hp, raise, PyErr_Format]
          · simp only [PyCapsule_CheckExact, PyCapsule_GetPointer, Bool.not_true, Bool.false_eq_true,
              if_false, hp]
            obtain ⟨f1, f2, f3, f4, f5⟩ := checkCompatibility_frame b env
              { s1 with EIGENPY_ARRAY_API := p }
            refine ⟨?_, ?_, ?_, f5, ?_⟩
            · rw [f2, hsnd]
            · rw [f3, hsnd]
            · rw [f4, hsnd]
            · intro _
              rw [f1]
              exact hp

theorem ImportUfuncAPI_frame (env : Env) (s : State) :
    (ImportUfuncAPI env s).2.EIGENPY_ARRAY_API = s.EIGENPY_ARRAY_API ∧
    (ImportUfuncAPI env s).2.EIGENPY_ARRAY_APIPyArray_RUNTIME_VERSION =
      s.EIGENPY_ARRAY_APIPyArray_RUNTIME_VERSION ∧
    (ImportUfuncAPI env s).2.eigenpy_numpy_initializer = s.eigenpy_numpy_initializer ∧
    (ImportUfuncAPI env s).2.diagnostics = s.diagnostics ∧
    ((ImportUfuncAPI env s).1 = 0 ∨ (ImportUfuncAPI env s).1 = -1) ∧
    ((ImportUfuncAPI env s).1 = 0 → (ImportUfuncAPI env s).2.EIGENPY_UFUNC_API ≠ 0) := by
  unfold ImportUfuncAPI
  by_cases h0 : s.EIGENPY_UFUNC_API ≠ 0
  · simp [h0]
  · rw [if_neg h0]
    have hsnd := ImportNumpyModule_snd env s
    rcases hr : ImportNumpyModule env s with ⟨o, s1⟩
    rw [hr] at hsnd
    simp only at hsnd
    cases o with
    | none => rw [hsnd]; simp [raise, PyErr_Format]
    | some numpy =>
      simp only [PyObject_GetAttrString]
      cases hg : numpy.getattr "_UFUNC_API" with
      | error e => rw [hsnd]; simp [raise, PyErr_Format]
      | ok c_api =>
        cases c_api with
        | other => rw [hsnd]; simp [PyCapsule_CheckExact, raise, PyErr_Format]
        | capsule p =>
          by_cases hp : p = 0
          · rw [hsnd]; simp [PyCapsule_CheckExact, PyCapsule_GetPointer, hp, raise, PyErr_Format]
          · rw [hsnd]; simp [PyCapsule_CheckExact, PyCapsule_GetPointer, hp]

theorem ImportUfuncAPI_capsule (env : Env) (s : State) (m : PyModule) (q : Nat)
    (hs : s.EIGENPY_UFUNC_API = 0) (hm : (ImportNumpyModule env s).1 = some m)
    (hc : m.getattr "_UFUNC_API" = .ok (.capsule q)) (hq : q ≠ 0) :
    ImportUfuncAPI env s = (0, { (ImportNumpyModule env s).2 with EIGENPY_UFUNC_API := q }) := by
  unfold ImportUfuncAPI
  rcases hr : ImportNumpyModule env s with ⟨o, s1⟩
  rw [hr] at hm
  simp only at hm
  subst hm
  simp [hs, PyObject_GetAttrString, hc, PyCapsule_CheckExact, PyCapsule_GetPointer, hq]


theorem ImportMultiarrayAPI_success (b : Build) (env : Env) (s : State) (m : PyModule) (p : Nat)
    (hs : s.EIGENPY_ARRAY_API = 0) (hm : (ImportNumpyModule env s).1 = some m)
    (hc : m.getattr "_ARRAY_API" = .ok (.capsule p)) (hp : p ≠ 0)
    (h1 : ¬ pointerWidthFails b env p) (h2 : ¬ abiFails b env p)
    (h3 : ¬ featureFails b env p) (h4 : ¬ endianFails b env p) :
    ImportMultiarrayAPI b env s =
      (0, { (ImportNumpyModule env s).2 with
              EIGENPY_ARRAY_API := p
              EIGENPY_ARRAY_APIPyArray_RUNTIME_VERSION := runtimeFeatureVersion env p }) := by
  rw [ImportMultiarrayAPI_capsule b env s m p hs hm hc hp]
  rw [checkCompatibility_endian b env _ h1 h2 h3]
  exact checkEndianness_passes b env _ h4

theorem ImportMultiarrayAPI_noop (b : Build) (env : Env) (t : State)
    (h : t.EIGENPY_ARRAY_API ≠ 0) : ImportMultiarrayAPI b env t = (0, t) := by
  unfold ImportMultiarrayAPI
  rw [if_pos h]

theorem ImportUfuncAPI_noop (env : Env) (t : State)
    (h : t.EIGENPY_UFUNC_API ≠ 0) : ImportUfuncAPI env t = (0, t) := by
  unfold ImportUfuncAPI
  rw [if_pos h]

theorem EigenPyNumpyInitializer_eq (b : Build) (env : Env) (s : State) :
    EigenPyNumpyInitializer b env s =
      if (ImportMultiarrayAPI b env s).1 < 0 then
        (.threw "Failed to initialize NumPy C-API", PyErr_Print (ImportMultiarrayAPI b env s).2)
      else if (ImportUfuncAPI env (ImportMultiarrayAPI b env s).2).1 < 0 then
        (.threw "Failed to initialize NumPy ufunc C-API",
          PyErr_Print (ImportUfuncAPI env (ImportMultiarrayAPI b env s).2).2)
      else (.returned, import_numpy (ImportUfuncAPI env (ImportMultiarrayAPI b env s).2).2) := rfl

theorem pinocchio_numpy_init_eq (b : Build) (env : Env) (s : State) :
    pinocchio_numpy_init b env s =
      if s.eigenpy_numpy_initializer then (.returned, s)
      else
        match (EigenPyNumpyInitializer b env s).1 with
        | .returned =>
          (.returned, { (EigenPyNumpyInitializer b env s).2 with eigenpy_numpy_initializer := true })
        | .threw what => (.threw what, (EigenPyNumpyInitializer b env s).2) := by
  unfold pinocchio_numpy_init
  split_ifs
  · rfl
  · rcases hE : EigenPyNumpyInitializer b env s with ⟨o, s1⟩
    cases o <;> rfl

theorem pinocchio_numpy_init_success (b : Build) (env : Env) (s : State) (m : PyModule)
    (p q : Nat)
    (hg : s.eigenpy_numpy_initializer = false)
    (hs : s.EIGENPY_ARRAY_API = 0) (hu : s.EIGENPY_UFUNC_API = 0)
    (hm : (ImportNumpyModule env s).1 = some m)
    (hc : m.getattr "_ARRAY_API" = .ok (.capsule p)) (hp : p ≠ 0)
    (hd : m.getattr "_UFUNC_API" = .ok (.capsule q)) (hq : q ≠ 0)
    (h1 : ¬ pointerWidthFails b env p) (h2 : ¬ abiFails b env p)
    (h3 : ¬ featureFails b env p) (h4 : ¬ endianFails b env p) :
    (pinocchio_numpy_init b env s).1 = .returned ∧
    (pinocchio_numpy_init b env s).2.EIGENPY_ARRAY_API = p ∧
    (pinocchio_numpy_init b env s).2.EIGENPY_UFUNC_API = q ∧
    (pinocchio_numpy_init b env s).2.EIGENPY_ARRAY_APIPyArray_RUNTIME_VERSION =
      runtimeFeatureVersion env p ∧
    (pinocchio_numpy_init b env s).2.eigenpy_numpy_initializer = true := by
  have hA := ImportMultiarrayAPI_success b env s m p hs hm hc hp h1 h2 h3 h4
  have hsnd := ImportNumpyModule_snd env s
  generalize ht : ({ (ImportNumpyModule env s).2 with
      EIGENPY_ARRAY_API := p
      EIGENPY_ARRAY_APIPyArray_RUNTIME_VERSION := runtimeFeatureVersion env p } : State) = t at hA
  have htu : t.EIGENPY_UFUNC_API = 0 := by rw [← ht, hsnd]; exact hu
  have htm : (ImportNumpyModule env t).1 = some m := by
    rw [ImportNumpyModule_fst env t s]; exact hm
  have hU := ImportUfuncAPI_capsule env t m q htu htm hd hq
  have hsnd2 := ImportNumpyModule_snd env t
  have hE : EigenPyNumpyInitializer b env s =
      (.returned, { (ImportNumpyModule env t).2 with EIGENPY_UFUNC_API := q }) := by
    rw [EigenPyNumpyInitializer_eq, hA]
    simp only [lt_self_iff_false, if_false]
    rw [hU]
    simp only [lt_self_iff_false, if_false, import_numpy]
  rw [pinocchio_numpy_init_eq, hg, hE]
  simp only [Bool.false_eq_true, if_false]
  rw [hsnd2, ← ht]
  simp


/-! ## The entry point -/

theorem PyErr_Print_frame (s : State) :
    (PyErr_Print s).EIGENPY_ARRAY_API = s.EIGENPY_ARRAY_API ∧
    (PyErr_Print s).EIGENPY_UFUNC_API = s.EIGENPY_UFUNC_API ∧
    (PyErr_Print s).eigenpy_numpy_initializer = s.eigenpy_numpy_initializer := by
  unfold PyErr_Print
  cases s.err <;> simp

/-- What a call of the entry point does, in every state in which a constructed
static implies populated tables. -/
theorem pinocchio_numpy_init_outcome (b : Build) (env : Env) (s : State)
    (hinv : s.eigenpy_numpy_initializer = true →
      s.EIGENPY_ARRAY_API ≠ 0 ∧ s.EIGENPY_UFUNC_API ≠ 0) :
    ((pinocchio_numpy_init b env s).1 = .returned →
      (pinocchio_numpy_init b env s).2.EIGENPY_ARRAY_API ≠ 0 ∧
      (pinocchio_numpy_init b env s).2.EIGENPY_UFUNC_API ≠ 0) ∧
    ((∃ what, (pinocchio_numpy_init b env s).1 = .threw what) ↔
      (ImportMultiarrayAPI b env s).1 < 0 ∨
      ((ImportMultiarrayAPI b env s).1 = 0 ∧
        (ImportUfuncAPI env (ImportMultiarrayAPI b env s).2).1 < 0)) ∧
    ((ImportMultiarrayAPI b env s).1 < 0 →
      pinocchio_numpy_init b env s =
        (.threw "Failed to initialize NumPy C-API", PyErr_Print (ImportMultiarrayAPI b env s).2) ∧
      (pinocchio_numpy_init b env s).2.EIGENPY_UFUNC_API = s.EIGENPY_UFUNC_API) ∧
    ((∃ what, (pinocchio_numpy_init b env s).1 = .threw what) →
      (pinocchio_numpy_init b env s).2.eigenpy_numpy_initializer = false) := by
  by_cases hg : s.eigenpy_numpy_initializer = true
  · obtain ⟨ha, hu⟩ := hinv hg
    have hP : pinocchio_numpy_init b env s = (.returned, s) := by
      rw [pinocchio_numpy_init_eq, if_pos hg]
    rw [hP, ImportMultiarrayAPI_noop b env s ha, ImportUfuncAPI_noop env s hu]
    simp [ha, hu]
  · have hgf : s.eigenpy_numpy_initializer = false := by simpa using hg
    obtain ⟨a1, a2, a3, a4, a5⟩ := ImportMultiarrayAPI_frame b env s
    obtain ⟨u1, u2, u3, u4, u5, u6⟩ := ImportUfuncAPI_frame env (ImportMultiarrayAPI b env s).2
    obtain ⟨p1, p2, p3⟩ := PyErr_Print_frame (ImportMultiarrayAPI b env s).2
    obtain ⟨q1, q2, q3⟩ :=
      PyErr_Print_frame (ImportUfuncAPI env (ImportMultiarrayAPI b env s).2).2
    rcases a4 with hA | hA
    · rcases u5 with hU | hU
      · have hE : EigenPyNumpyInitializer b env s =
            (.returned, import_numpy (ImportUfuncAPI env (ImportMultiarrayAPI b env s).2).2) := by
          rw [EigenPyNumpyInitializer_eq, hA, hU]
          simp
        have hP : pinocchio_numpy_init b env s =
            (.returned, { import_numpy (ImportUfuncAPI env (ImportMultiarrayAPI b env s).2).2 with
                            eigenpy_numpy_initializer := true }) := by
          rw [pinocchio_numpy_init_eq, if_neg hg, hE]
        rw [hP, hA, hU]
        simp only [import_numpy]
        refine ⟨fun _ => ⟨?_, u6 hU⟩, by simp, by simp, by simp⟩
        show (ImportUfuncAPI env (ImportMultiarrayAPI b env s).2).2.EIGENPY_ARRAY_API ≠ 0
        rw [u1]
        exact a5 hA
      · have hE : EigenPyNumpyInitializer b env s =
            (.threw "Failed to initialize NumPy ufunc C-API",
              PyErr_Print (ImportUfuncAPI env (ImportMultiarrayAPI b env s).2).2) := by
          rw [EigenPyNumpyInitializer_eq, hA, hU]
          simp
        have hP : pinocchio_numpy_init b env s =
            (.threw "Failed to initialize NumPy ufunc C-API",
              PyErr_Print (ImportUfuncAPI env (ImportMultiarrayAPI b env s).2).2) := by
          rw [pinocchio_numpy_init_eq, if_neg hg, hE]
        rw [hP, hA, hU]
        simp only [q3, u3, a2, hgf]
        simp
    · have hE : EigenPyNumpyInitializer b env s =
          (.threw "Failed to initialize NumPy C-API",
            PyErr_Print (ImportMultiarrayAPI b env s).2) := by
        rw [EigenPyNumpyInitializer_eq, hA]
        simp
      have hP : pinocchio_numpy_init b env s =
          (.threw "Failed to initialize NumPy C-API",
            PyErr_Print (ImportMultiarrayAPI b env s).2) := by
        rw [pinocchio_numpy_init_eq, if_neg hg, hE]
      rw [hP, hA]
      simp only [p2, p3, a1, a2, hgf]
      simp

/-- At program start the static is not constructed. -/
theorem static_invariant_initial :
    State.initial.eigenpy_numpy_initializer = true →
      State.initial.EIGENPY_ARRAY_API ≠ 0 ∧ State.initial.EIGENPY_UFUNC_API ≠ 0 := by
  intro h
  exact absurd h (by decide)

/-- A call of the entry point keeps the property that a constructed static implies
populated tables, so the property holds in every state the program reaches. -/
theorem static_invariant_preserved (b : Build) (env : Env) (s : State)
    (hinv : s.eigenpy_numpy_initializer = true →
      s.EIGENPY_ARRAY_API ≠ 0 ∧ s.EIGENPY_UFUNC_API ≠ 0) :
    (pinocchio_numpy_init b env s).2.eigenpy_numpy_initializer = true →
      (pinocchio_numpy_init b env s).2.EIGENPY_ARRAY_API ≠ 0 ∧
      (pinocchio_numpy_init b env s).2.EIGENPY_UFUNC_API ≠ 0 := by
  obtain ⟨h1, _, _, h4⟩ := pinocchio_numpy_init_outcome b env s hinv
  intro hg
  cases ho : (pinocchio_numpy_init b env s).1 with
  | returned => exact h1 ho
  | threw what =>
    have := h4 ⟨what, ho⟩
    rw [this] at hg
    exact absurd hg (by decide)

/-! ## The claims -/

/-- C1 (as amended): when the module resolves, `_ARRAY_API` is a genuine capsule holding
a non-null pointer and the compiled ABI version `NPY_VERSION` is strictly less than the
ABI version the runtime reports, `ImportMultiarrayAPI` called with the array pointer
unset returns `-1`; the error is the ABI-mismatch error, unless the pointer-width check,
which runs first, fails, and then it is that check's error. -/
theorem abi_check_rejects_newer_runtime (b : Build) (env : Env) (s : State) (m : PyModule)
    (p : Nat)
    (hs : s.EIGENPY_ARRAY_API = 0)
    (hm : (ImportNumpyModule env s).1 = some m)
    (hc : m.getattr "_ARRAY_API" = .ok (.capsule p)) (hp : p ≠ 0)
    (habi : toUInt32 b.NPY_VERSION < toUInt32 (env.PyArray_GetNDArrayCVersion p)) :
    (ImportMultiarrayAPI b env s).1 = -1 ∧
    (¬ pointerWidthFails b env p →
      (ImportMultiarrayAPI b env s).2.err =
        some (abiMismatchError b (toUInt32 (env.PyArray_GetNDArrayCVersion p)))) ∧
    (pointerWidthFails b env p →
      (ImportMultiarrayAPI b env s).2.err = some pointerWidthError) := by
  rw [ImportMultiarrayAPI_capsule b env s m p hs hm hc hp]
  generalize ht : ({ (ImportNumpyModule env s).2 with EIGENPY_ARRAY_API := p } : State) = t
  have hpt : t.EIGENPY_ARRAY_API = p := by rw [← ht]
  rw [← hpt] at habi ⊢
  by_cases h1 : pointerWidthFails b env t.EIGENPY_ARRAY_API
  · rw [checkCompatibility_width b env t h1]
    simp [h1, raise_err]
  · rw [checkCompatibility_abi b env t h1 habi]
    simp [h1, raise_err]

/-- C1, witness: a build with ABI version `0x01000009` on a runtime reporting
`0x02000000` is rejected with the ABI-mismatch error. -/
theorem abi_check_rejects_newer_runtime_witness :
    State.initial.EIGENPY_ARRAY_API = 0 ∧
    (ImportNumpyModule numpy2Env State.initial).1 = some numpyModule ∧
    numpyModule.getattr "_ARRAY_API" = .ok (.capsule 4096) ∧
    toUInt32 buildNumpy1.NPY_VERSION < toUInt32 (numpy2Env.PyArray_GetNDArrayCVersion 4096) ∧
    (ImportMultiarrayAPI buildNumpy1 numpy2Env State.initial).1 = -1 ∧
    (ImportMultiarrayAPI buildNumpy1 numpy2Env State.initial).2.err =
      some (abiMismatchError buildNumpy1
        (toUInt32 (numpy2Env.PyArray_GetNDArrayCVersion 4096))) :=
  have h := abi_check_rejects_newer_runtime buildNumpy1 numpy2Env State.initial numpyModule 4096
    rfl rfl rfl (by decide) (by decide)
  ⟨rfl, rfl, rfl, by decide, h.1, h.2.1 (by decide)⟩

/-- C1, counterexample: the compiled ABI version `0x02000000` is strictly greater than
the version `0x01000009` the runtime reports, the module resolves and the capsule is
genuine and non-null, and `ImportMultiarrayAPI` called with the pointer unset returns
`0` with no error set. -/
theorem abi_check_accepts_older_runtime :
    State.initial.EIGENPY_ARRAY_API = 0 ∧
    (ImportNumpyModule numpy1Env State.initial).1 = some numpyModule ∧
    numpyModule.getattr "_ARRAY_API" = .ok (.capsule 4096) ∧
    toUInt32 (numpy1Env.PyArray_GetNDArrayCVersion 4096) < toUInt32 buildNumpy2.NPY_VERSION ∧
    (ImportMultiarrayAPI buildNumpy2 numpy1Env State.initial).1 = 0 ∧
    (ImportMultiarrayAPI buildNumpy2 numpy1Env State.initial).1 ≠ -1 ∧
    (ImportMultiarrayAPI buildNumpy2 numpy1Env State.initial).2.err = none :=
  ⟨rfl, rfl, rfl, by decide, by decide, by decide, by decide⟩

/-- C2 (the code at the failing input): called with the array pointer unset on a runtime
whose ABI version is newer than the compiled one, `ImportMultiarrayAPI` returns `-1`
with the ABI-mismatch error, and `EIGENPY_ARRAY_API` is left holding the capsule
pointer, not null. -/
theorem array_pointer_set_after_failed_check :
    State.initial.EIGENPY_ARRAY_API = 0 ∧
    (ImportMultiarrayAPI buildNumpy1 numpy2Env State.initial).1 = -1 ∧
    (ImportMultiarrayAPI buildNumpy1 numpy2Env State.initial).2.err =
      some (abiMismatchError buildNumpy1 0x02000000) ∧
    (ImportMultiarrayAPI buildNumpy1 numpy2Env State.initial).2.EIGENPY_ARRAY_API = 4096 ∧
    (ImportMultiarrayAPI buildNumpy1 numpy2Env State.initial).2.EIGENPY_ARRAY_API ≠ 0 :=
  ⟨rfl, by decide, by decide, by decide, by decide⟩

/-- C3 (the code at the failing input): on a runtime whose ABI version is newer than the
compiled one, the first call of `pinocchio_numpy_init` throws, and the second call, in
the same environment and from the state the first one left, returns normally: the
static is constructed and `EIGENPY_ARRAY_API` holds the rejected table, with no runtime
feature version captured. -/
theorem failed_initialization_retry_succeeds :
    (pinocchio_numpy_init buildNumpy1 numpy2Env State.initial).1 =
      .threw "Failed to initialize NumPy C-API" ∧
    abiFails buildNumpy1 numpy2Env 4096 ∧
    (pinocchio_numpy_init buildNumpy1 numpy2Env
      (pinocchio_numpy_init buildNumpy1 numpy2Env State.initial).2).1 = .returned ∧
    (pinocchio_numpy_init buildNumpy1 numpy2Env
      (pinocchio_numpy_init buildNumpy1 numpy2Env State.initial).2).2.eigenpy_numpy_initializer
        = true ∧
    (pinocchio_numpy_init buildNumpy1 numpy2Env
      (pinocchio_numpy_init buildNumpy1 numpy2Env State.initial).2).2.EIGENPY_ARRAY_API
        = 4096 ∧
    (pinocchio_numpy_init buildNumpy1 numpy2Env
      (pinocchio_numpy_init buildNumpy1 numpy2Env
        State.initial).2).2.EIGENPY_ARRAY_APIPyArray_RUNTIME_VERSION = 0 :=
  ⟨by decide, by decide, by decide, by decide, by decide, by decide⟩

/-- C4 (as amended): when the module resolves and its `_ARRAY_API` attribute exists but
is not a genuine capsule, `ImportMultiarrayAPI` called with the array pointer unset
returns `-1` with a `RuntimeError` set (message `_ARRAY_API is not PyCapsule object`),
and `EIGENPY_ARRAY_API` remains null. -/
theorem array_attribute_not_capsule (b : Build) (env : Env) (s : State) (m : PyModule)
    (o : PyObject)
    (hs : s.EIGENPY_ARRAY_API = 0)
    (hm : (ImportNumpyModule env s).1 = some m)
    (hc : m.getattr "_ARRAY_API" = .ok o) (ho : PyCapsule_CheckExact o = false) :
    (ImportMultiarrayAPI b env s).1 = -1 ∧
    (ImportMultiarrayAPI b env s).2.err = some arrayNotCapsuleError ∧
    arrayNotCapsuleError.type = .RuntimeError ∧
    (ImportMultiarrayAPI b env s).2.EIGENPY_ARRAY_API = 0 := by
  have hsnd := ImportNumpyModule_snd env s
  unfold ImportMultiarrayAPI
  rcases hr : ImportNumpyModule env s with ⟨om, s1⟩
  rw [hr] at hm hsnd
  simp only at hm hsnd
  subst hm
  rw [hsnd]
  simp [hs, PyObject_GetAttrString, hc, ho, raise, PyErr_Format, arrayNotCapsuleError]

/-- C4, witness: the module whose `_ARRAY_API` is not a capsule. -/
theorem array_attribute_not_capsule_witness :
    State.initial.EIGENPY_ARRAY_API = 0 ∧
    (ImportNumpyModule brokenEnv State.initial).1 = some brokenModule ∧
    brokenModule.getattr "_ARRAY_API" = .ok .other ∧
    PyCapsule_CheckExact .other = false ∧
    (ImportMultiarrayAPI buildNumpy2 brokenEnv State.initial).1 = -1 ∧
    (ImportMultiarrayAPI buildNumpy2 brokenEnv State.initial).2.err =
      some arrayNotCapsuleError ∧
    (ImportMultiarrayAPI buildNumpy2 brokenEnv State.initial).2.EIGENPY_ARRAY_API = 0 :=
  have h := array_attribute_not_capsule buildNumpy2 brokenEnv State.initial brokenModule .other
    rfl rfl rfl rfl
  ⟨rfl, rfl, rfl, rfl, h.1, h.2.1, h.2.2.2⟩

/-- C4, counterexample: the module resolves and `_ARRAY_API` is not a capsule; the call
returns `-1` and the class of the error that is set is `RuntimeError`, not `TypeError`. -/
theorem not_capsule_error_is_runtime_error :
    State.initial.EIGENPY_ARRAY_API = 0 ∧
    (ImportNumpyModule brokenEnv State.initial).1 = some brokenModule ∧
    brokenModule.getattr "_ARRAY_API" = .ok .other ∧
    (ImportMultiarrayAPI buildNumpy2 brokenEnv State.initial).1 = -1 ∧
    (ImportMultiarrayAPI buildNumpy2 brokenEnv State.initial).2.err.map PyErr.type =
      some .RuntimeError ∧
    (ImportMultiarrayAPI buildNumpy2 brokenEnv State.initial).2.err.map PyErr.type ≠
      some .TypeError :=
  ⟨rfl, rfl, rfl, by decide, by decide, by decide⟩

/-- C5: for every environment exposing valid capsules with versions and endianness that
pass the checks, the first call of `pinocchio_numpy_init` returns normally with both
table pointers populated; every repeated call returns normally and leaves the whole
state, in particular `EIGENPY_ARRAY_API`, `EIGENPY_UFUNC_API` and the stored runtime
feature version, as the first call left it; and `ImportMultiarrayAPI` (resp.
`ImportUfuncAPI`) called with its pointer already non-null returns `0` and changes no
state. -/
theorem initialization_idempotent (b : Build) (env : Env) (s : State) (m : PyModule)
    (p q : Nat)
    (hg : s.eigenpy_numpy_initializer = false)
    (hs : s.EIGENPY_ARRAY_API = 0) (hu : s.EIGENPY_UFUNC_API = 0)
    (hm : (ImportNumpyModule env s).1 = some m)
    (hc : m.getattr "_ARRAY_API" = .ok (.capsule p)) (hp : p ≠ 0)
    (hd : m.getattr "_UFUNC_API" = .ok (.capsule q)) (hq : q ≠ 0)
    (h1 : ¬ pointerWidthFails b env p) (h2 : ¬ abiFails b env p)
    (h3 : ¬ featureFails b env p) (h4 : ¬ endianFails b env p) :
    ((pinocchio_numpy_init b env s).1 = .returned ∧
      (pinocchio_numpy_init b env s).2.EIGENPY_ARRAY_API = p ∧
      (pinocchio_numpy_init b env s).2.EIGENPY_UFUNC_API = q ∧
      (pinocchio_numpy_init b env s).2.EIGENPY_ARRAY_APIPyArray_RUNTIME_VERSION =
        runtimeFeatureVersion env p) ∧
    (∀ n : Nat,
      Nat.iterate (fun t => (pinocchio_numpy_init b env t).2) n (pinocchio_numpy_init b env s).2 =
        (pinocchio_numpy_init b env s).2) ∧
    pinocchio_numpy_init b env (pinocchio_numpy_init b env s).2 =
      (.returned, (pinocchio_numpy_init b env s).2) ∧
    (∀ t : State, t.EIGENPY_ARRAY_API ≠ 0 → ImportMultiarrayAPI b env t = (0, t)) ∧
    (∀ t : State, t.EIGENPY_UFUNC_API ≠ 0 → ImportUfuncAPI env t = (0, t)) := by
  obtain ⟨r1, r2, r3, r4, r5⟩ :=
    pinocchio_numpy_init_success b env s m p q hg hs hu hm hc hp hd hq h1 h2 h3 h4
  have hrep : pinocchio_numpy_init b env (pinocchio_numpy_init b env s).2 =
      (.returned, (pinocchio_numpy_init b env s).2) := by
    rw [pinocchio_numpy_init_eq b env (pinocchio_numpy_init b env s).2, r5]
    simp
  refine ⟨⟨r1, r2, r3, r4⟩, ?_, hrep, ImportMultiarrayAPI_noop b env, ImportUfuncAPI_noop env⟩
  intro n
  induction n with
  | zero => rfl
  | succ k ih =>
    rw [Function.iterate_succ_apply]
    simp only [hrep]
    exact ih

/-- C5, witness: the NumPy 2 runtime and a build against NumPy 2 headers. -/
theorem initialization_idempotent_witness :
    (pinocchio_numpy_init buildNumpy2 numpy2Env State.initial).1 = .returned ∧
    (pinocchio_numpy_init buildNumpy2 numpy2Env State.initial).2.EIGENPY_ARRAY_API = 4096 ∧
    (pinocchio_numpy_init buildNumpy2 numpy2Env State.initial).2.EIGENPY_UFUNC_API = 8192 ∧
    pinocchio_numpy_init buildNumpy2 numpy2Env
        (pinocchio_numpy_init buildNumpy2 numpy2Env State.initial).2 =
      (.returned, (pinocchio_numpy_init buildNumpy2 numpy2Env State.initial).2) :=
  have h := initialization_idempotent buildNumpy2 numpy2Env State.initial numpyModule 4096 8192
    rfl rfl rfl rfl rfl (by decide) rfl (by decide) (by decide) (by decide) (by decide)
    (by decide)
  ⟨h.1.1, h.1.2.1, h.1.2.2.1, h.2.2.1⟩

/-- C6: when importing the primary module `numpy._core._multiarray_umath` fails with
`ModuleNotFoundError` (the class itself or a class derived from it) and importing the
legacy module `numpy.core._multiarray_umath` succeeds, `ImportNumpyModule` returns the legacy module with the error indicator
cleared, and `pinocchio_numpy_init` succeeds when that module is valid; when
both imports fail, `ImportNumpyModule` returns no module and the exception of the
failed import is left set (that of the legacy import when the fallback ran, that of
the primary import when that was no `ModuleNotFoundError`). -/
theorem module_resolution_fallback (b : Build) (env : Env) (s : State) (e1 : PyErr)
    (hprimary : env.PyImport_ImportModule "numpy._core._multiarray_umath" = .error e1) :
    (e1.type.isSubclassOf .ModuleNotFoundError = true →
      ∀ m, env.PyImport_ImportModule "numpy.core._multiarray_umath" = .ok m →
        ImportNumpyModule env s = (some m, { s with err := none }) ∧
        (∀ p q, s.eigenpy_numpy_initializer = false →
          s.EIGENPY_ARRAY_API = 0 → s.EIGENPY_UFUNC_API = 0 →
          m.getattr "_ARRAY_API" = .ok (.capsule p) → p ≠ 0 →
          m.getattr "_UFUNC_API" = .ok (.capsule q) → q ≠ 0 →
          ¬ pointerWidthFails b env p → ¬ abiFails b env p →
          ¬ featureFails b env p → ¬ endianFails b env p →
          (pinocchio_numpy_init b env s).1 = .returned ∧
          (pinocchio_numpy_init b env s).2.EIGENPY_ARRAY_API = p ∧
          (pinocchio_numpy_init b env s).2.EIGENPY_UFUNC_API = q)) ∧
    (∀ e2, env.PyImport_ImportModule "numpy.core._multiarray_umath" = .error e2 →
      (ImportNumpyModule env s).1 = none ∧
      (ImportNumpyModule env s).2.err =
        some (if e1.type.isSubclassOf .ModuleNotFoundError = true then e2 else e1)) := by
  constructor
  · intro hmnf m hlegacy
    have hI : ImportNumpyModule env s = (some m, { s with err := none }) := by
      rw [ImportNumpyModule_eq, hprimary]
      simp only [hmnf, if_true]
      rw [hlegacy]
    refine ⟨hI, ?_⟩
    intro p q hg hs hu hc hp hd hq h1 h2 h3 h4
    have hm : (ImportNumpyModule env s).1 = some m := by rw [hI]
    obtain ⟨r1, r2, r3, _, _⟩ :=
      pinocchio_numpy_init_success b env s m p q hg hs hu hm hc hp hd hq h1 h2 h3 h4
    exact ⟨r1, r2, r3⟩
  · intro e2 hlegacy
    rw [ImportNumpyModule_eq, hprimary]
    by_cases hmnf : e1.type.isSubclassOf .ModuleNotFoundError = true
    · simp [hmnf, hlegacy]
    · simp [hmnf]

/-- C6, witness: the NumPy 1 runtime, which has the legacy module only; the same
with a primary import that raises a class derived from `ModuleNotFoundError`; a
runtime without NumPy; and a runtime in which the primary import raises such a
derived class and the legacy import raises `ImportError`, which is left set. -/
theorem module_resolution_fallback_witness :
    numpy1Env.PyImport_ImportModule "numpy._core._multiarray_umath" =
      .error ⟨.ModuleNotFoundError, "numpy._core._multiarray_umath", []⟩ ∧
    ImportNumpyModule numpy1Env State.initial = (some numpyModule, State.initial) ∧
    (pinocchio_numpy_init buildNumpy2 numpy1Env State.initial).1 = .returned ∧
    ImportNumpyModule derivedErrorEnv State.initial = (some numpyModule, State.initial) ∧
    (pinocchio_numpy_init buildNumpy2 derivedErrorEnv State.initial).1 = .returned ∧
    (ImportNumpyModule noNumpyEnv State.initial).1 = none ∧
    (ImportNumpyModule noNumpyEnv State.initial).2.err =
      some ⟨.ModuleNotFoundError, "numpy.core._multiarray_umath", []⟩ ∧
    (ImportNumpyModule derivedErrorNoNumpyEnv State.initial).1 = none ∧
    (ImportNumpyModule derivedErrorNoNumpyEnv State.initial).2.err =
      some ⟨.ImportError, "numpy.core._multiarray_umath", []⟩ :=
  have h1 := module_resolution_fallback buildNumpy2 numpy1Env State.initial
    ⟨.ModuleNotFoundError, "numpy._core._multiarray_umath", []⟩ rfl
  have h2 := module_resolution_fallback buildNumpy2 noNumpyEnv State.initial
    ⟨.ModuleNotFoundError, "numpy._core._multiarray_umath", []⟩ rfl
  have h3 := h1.1 rfl numpyModule rfl
  have h4 := h2.2 ⟨.ModuleNotFoundError, "numpy.core._multiarray_umath", []⟩ rfl
  have h5 := module_resolution_fallback buildNumpy2 derivedErrorEnv State.initial
    ⟨.Subclass "PackageNotFoundError" .ModuleNotFoundError,
      "numpy._core._multiarray_umath", []⟩ rfl
  have h6 := h5.1 rfl numpyModule rfl
  have h7 := module_resolution_fallback buildNumpy2 derivedErrorNoNumpyEnv State.initial
    ⟨.Subclass "PackageNotFoundError" .ModuleNotFoundError,
      "numpy._core._multiarray_umath", []⟩ rfl
  have h8 := h7.2 ⟨.ImportError, "numpy.core._multiarray_umath", []⟩ rfl
  ⟨rfl, h3.1,
    (h3.2 4096 8192 rfl rfl rfl rfl (by decide) rfl (by decide) (by decide) (by decide)
      (by decide) (by decide)).1,
    h6.1,
    (h6.2 4096 8192 rfl rfl rfl rfl (by decide) rfl (by decide) (by decide) (by decide)
      (by decide) (by decide)).1,
    h4.1, h4.2, h8.1, h8.2⟩

/-- C7: when the module resolves, `_ARRAY_API` is a genuine non-null capsule and the
pointer-width, ABI and feature-version checks pass, then (the build being big or little
endian) `ImportMultiarrayAPI` called with the pointer unset returns `-1` with an
endianness error if the endianness the runtime reports is unknown or differs from the
compile-time byte order, and returns `0` if it matches. -/
theorem endianness_check_decides (b : Build) (env : Env) (s : State) (m : PyModule) (p : Nat)
    (hs : s.EIGENPY_ARRAY_API = 0)
    (hm : (ImportNumpyModule env s).1 = some m)
    (hc : m.getattr "_ARRAY_API" = .ok (.capsule p)) (hp : p ≠ 0)
    (hbo : b.NPY_BYTE_ORDER = NPY_BIG_ENDIAN ∨ b.NPY_BYTE_ORDER = NPY_LITTLE_ENDIAN)
    (h1 : ¬ pointerWidthFails b env p) (h2 : ¬ abiFails b env p)
    (h3 : ¬ featureFails b env p) :
    (env.PyArray_GetEndianness p = NPY_CPU_UNKNOWN_ENDIAN ∨
        env.PyArray_GetEndianness p ≠ targetEndian b →
      (ImportMultiarrayAPI b env s).1 = -1 ∧
      (ImportMultiarrayAPI b env s).2.err = some (endianError b env p) ∧
      endianError b env p ∈ [unknownEndianError, bigEndianError, littleEndianError]) ∧
    (env.PyArray_GetEndianness p = targetEndian b → (ImportMultiarrayAPI b env s).1 = 0) := by
  rw [ImportMultiarrayAPI_capsule b env s m p hs hm hc hp]
  rw [checkCompatibility_endian b env _ h1 h2 h3]
  constructor
  · intro h4
    have hE := checkEndianness_fails b env
      { (ImportNumpyModule env s).2 with
          EIGENPY_ARRAY_API := p
          EIGENPY_ARRAY_APIPyArray_RUNTIME_VERSION := runtimeFeatureVersion env p } hbo h4
    refine ⟨by rw [hE], by rw [hE]; rfl, ?_⟩
    unfold endianError
    split_ifs <;> simp
  · intro h4
    have hn : ¬ endianFails b env p := by
      unfold endianFails
      rw [h4]
      unfold targetEndian
      rcases hbo with hb | hl
      · rw [if_pos hb]; decide
      · have hne : NPY_LITTLE_ENDIAN ≠ NPY_BIG_ENDIAN := by decide
        rw [hl, if_neg hne]; decide
    have hE := checkEndianness_passes b env
      { (ImportNumpyModule env s).2 with
          EIGENPY_ARRAY_API := p
          EIGENPY_ARRAY_APIPyArray_RUNTIME_VERSION := runtimeFeatureVersion env p } hn
    rw [hE]

/-- C7, witness: a little-endian build on a runtime reporting big endian fails with the
little-endian error, and on a runtime reporting little endian returns `0`. -/
theorem endianness_check_decides_witness :
    buildNumpy2.NPY_BYTE_ORDER = NPY_LITTLE_ENDIAN ∧
    bigEndianEnv.PyArray_GetEndianness 4096 ≠ targetEndian buildNumpy2 ∧
    (ImportMultiarrayAPI buildNumpy2 bigEndianEnv State.initial).1 = -1 ∧
    (ImportMultiarrayAPI buildNumpy2 bigEndianEnv State.initial).2.err =
      some littleEndianError ∧
    numpy2Env.PyArray_GetEndianness 4096 = targetEndian buildNumpy2 ∧
    (ImportMultiarrayAPI buildNumpy2 numpy2Env State.initial).1 = 0 :=
  have h1 := endianness_check_decides buildNumpy2 bigEndianEnv State.initial numpyModule 4096
    rfl rfl rfl (by decide) (Or.inr rfl) (by decide) (by decide) (by decide)
  have h2 := endianness_check_decides buildNumpy2 numpy2Env State.initial numpyModule 4096
    rfl rfl rfl (by decide) (Or.inr rfl) (by decide) (by decide) (by decide)
  have h3 := h1.1 (Or.inr (by decide))
  ⟨rfl, by decide, h3.1, h3.2.1, by decide, h2.2 (by decide)⟩

/-- C8: in every state the program can reach (a constructed static implies populated
tables, which holds at start and is kept by every call) and every environment: if
`pinocchio_numpy_init` returns normally then `EIGENPY_ARRAY_API` and
`EIGENPY_UFUNC_API` are both non-null; it throws exactly when `ImportMultiarrayAPI`
returns a negative value or, that having returned `0`, `ImportUfuncAPI` returns a
negative value; and when the array import fails the ufunc import is not attempted: the
call ends in the state the array import left, with the error printed, and
`EIGENPY_UFUNC_API` is unchanged. -/
theorem no_partial_success (b : Build) (env : Env) (s : State)
    (hinv : s.eigenpy_numpy_initializer = true →
      s.EIGENPY_ARRAY_API ≠ 0 ∧ s.EIGENPY_UFUNC_API ≠ 0) :
    ((pinocchio_numpy_init b env s).1 = .returned →
      (pinocchio_numpy_init b env s).2.EIGENPY_ARRAY_API ≠ 0 ∧
      (pinocchio_numpy_init b env s).2.EIGENPY_UFUNC_API ≠ 0) ∧
    ((∃ what, (pinocchio_numpy_init b env s).1 = .threw what) ↔
      (ImportMultiarrayAPI b env s).1 < 0 ∨
      ((ImportMultiarrayAPI b env s).1 = 0 ∧
        (ImportUfuncAPI env (ImportMultiarrayAPI b env s).2).1 < 0)) ∧
    ((ImportMultiarrayAPI b env s).1 < 0 →
      pinocchio_numpy_init b env s =
        (.threw "Failed to initialize NumPy C-API", PyErr_Print (ImportMultiarrayAPI b env s).2) ∧
      (pinocchio_numpy_init b env s).2.EIGENPY_UFUNC_API = s.EIGENPY_UFUNC_API) :=
  have h := pinocchio_numpy_init_outcome b env s hinv
  ⟨h.1, h.2.1, h.2.2.1⟩

/-- C8, witness: from the start state, on the NumPy 2 runtime both tables are populated,
and without NumPy the call throws with `EIGENPY_UFUNC_API` unchanged. -/
theorem no_partial_success_witness :
    (State.initial.eigenpy_numpy_initializer = true →
      State.initial.EIGENPY_ARRAY_API ≠ 0 ∧ State.initial.EIGENPY_UFUNC_API ≠ 0) ∧
    (pinocchio_numpy_init buildNumpy2 numpy2Env State.initial).1 = .returned ∧
    (pinocchio_numpy_init buildNumpy2 numpy2Env State.initial).2.EIGENPY_ARRAY_API ≠ 0 ∧
    (pinocchio_numpy_init buildNumpy2 numpy2Env State.initial).2.EIGENPY_UFUNC_API ≠ 0 ∧
    (ImportMultiarrayAPI buildNumpy2 noNumpyEnv State.initial).1 < 0 ∧
    (pinocchio_numpy_init buildNumpy2 noNumpyEnv State.initial).1 =
      .threw "Failed to initialize NumPy C-API" ∧
    (pinocchio_numpy_init buildNumpy2 noNumpyEnv State.initial).2.EIGENPY_UFUNC_API =
      State.initial.EIGENPY_UFUNC_API :=
  have h1 := no_partial_success buildNumpy2 numpy2Env State.initial static_invariant_initial
  have h2 := no_partial_success buildNumpy2 noNumpyEnv State.initial static_invariant_initial
  have h3 := h1.1 (by decide)
  have h4 := h2.2.2 (by decide)
  ⟨static_invariant_initial, by decide, h3.1, h3.2, by decide, congrArg Prod.fst h4.1, h4.2⟩

/-- C9: called with `EIGENPY_UFUNC_API` unset, `ImportUfuncAPI` returns `0` if and only if
the module resolves and its `_UFUNC_API` attribute exists, is a genuine capsule and
holds a non-null pointer; on success `EIGENPY_UFUNC_API` equals that capsule pointer;
and the result does not depend on the ABI version, feature version or endianness the
runtime reports. -/
theorem ufunc_import_validation (env : Env) (s : State) (hs : s.EIGENPY_UFUNC_API = 0) :
    ((ImportUfuncAPI env s).1 = 0 ↔
      ∃ m p, (ImportNumpyModule env s).1 = some m ∧
        m.getattr "_UFUNC_API" = .ok (.capsule p) ∧ p ≠ 0) ∧
    (∀ m p, (ImportNumpyModule env s).1 = some m →
        m.getattr "_UFUNC_API" = .ok (.capsule p) → p ≠ 0 →
        (ImportUfuncAPI env s).2.EIGENPY_UFUNC_API = p) ∧
    (∀ (abi feature : Nat → Nat) (endianness : Nat → Int),
        ImportUfuncAPI
          { env with
              PyArray_GetNDArrayCVersion := abi
              PyArray_GetNDArrayCFeatureVersion := feature
              PyArray_GetEndianness := endianness } s = ImportUfuncAPI env s) := by
  refine ⟨⟨?_, ?_⟩, ?_, ?_⟩
  · intro h0
    unfold ImportUfuncAPI at h0
    rw [if_neg (by simp [hs])] at h0
    rcases hr : ImportNumpyModule env s with ⟨o, s1⟩
    rw [hr] at h0
    cases o with
    | none => simp at h0
    | some numpy =>
      simp only [PyObject_GetAttrString] at h0
      cases hg : numpy.getattr "_UFUNC_API" with
      | error e => rw [hg] at h0; simp at h0
      | ok c_api =>
        rw [hg] at h0
        cases c_api with
        | other => simp [PyCapsule_CheckExact] at h0
        | capsule p =>
          by_cases hp : p = 0
          · simp [PyCapsule_CheckExact, PyCapsule_GetPointer, hp] at h0
          · exact ⟨numpy, p, rfl, hg, hp⟩
  · rintro ⟨m, p, hm, hc, hp⟩
    rw [ImportUfuncAPI_capsule env s m p hs hm hc hp]
  · intro m p hm hc hp
    rw [ImportUfuncAPI_capsule env s m p hs hm hc hp]
  · intro abi feature endianness
    rfl

/-- C9, witness: the NumPy 2 runtime, and the same call with the reported endianness
changed. -/
theorem ufunc_import_validation_witness :
    State.initial.EIGENPY_UFUNC_API = 0 ∧
    (ImportUfuncAPI numpy2Env State.initial).1 = 0 ∧
    (ImportUfuncAPI numpy2Env State.initial).2.EIGENPY_UFUNC_API = 8192 ∧
    ImportUfuncAPI bigEndianEnv State.initial = ImportUfuncAPI numpy2Env State.initial :=
  have h := ufunc_import_validation numpy2Env State.initial rfl
  ⟨rfl, h.1.2 ⟨numpyModule, 8192, rfl, rfl, by decide⟩,
    h.2.1 numpyModule 8192 rfl rfl (by decide),
    h.2.2 (fun _ => 0x02000000) (fun _ => 0x13) (fun _ => 2)⟩

/-- The four tests of lines 75-123 in the order the code runs them: with the pointer
unset and a genuine non-null capsule (the build being big or little endian),
`ImportMultiarrayAPI` returns `0` if and only if none of the four tests fires, and
otherwise returns `-1` with the error of the earliest one that fires; on return `0`
the stored runtime feature version equals the value the runtime reported.  Test (1)
is the comparison the code makes, against `NPY_2_0_API_VERSION`. -/
theorem checkCompatibility_first_failure (b : Build) (env : Env) (s : State) (m : PyModule) (p : Nat)
    (hs : s.EIGENPY_ARRAY_API = 0)
    (hm : (ImportNumpyModule env s).1 = some m)
    (hc : m.getattr "_ARRAY_API" = .ok (.capsule p)) (hp : p ≠ 0)
    (hbo : b.NPY_BYTE_ORDER = NPY_BIG_ENDIAN ∨ b.NPY_BYTE_ORDER = NPY_LITTLE_ENDIAN) :
    ((ImportMultiarrayAPI b env s).1 = 0 ↔
      ¬ pointerWidthFails b env p ∧ ¬ abiFails b env p ∧ ¬ featureFails b env p ∧
        ¬ endianFails b env p) ∧
    (pointerWidthFails b env p →
      (ImportMultiarrayAPI b env s).1 = -1 ∧
      (ImportMultiarrayAPI b env s).2.err = some pointerWidthError) ∧
    (¬ pointerWidthFails b env p → abiFails b env p →
      (ImportMultiarrayAPI b env s).1 = -1 ∧
      (ImportMultiarrayAPI b env s).2.err =
        some (abiMismatchError b (toUInt32 (env.PyArray_GetNDArrayCVersion p)))) ∧
    (¬ pointerWidthFails b env p → ¬ abiFails b env p → featureFails b env p →
      (ImportMultiarrayAPI b env s).1 = -1 ∧
      (ImportMultiarrayAPI b env s).2.err =
        some (featureVersionError b (runtimeFeatureVersion env p))) ∧
    (¬ pointerWidthFails b env p → ¬ abiFails b env p → ¬ featureFails b env p →
      endianFails b env p →
      (ImportMultiarrayAPI b env s).1 = -1 ∧
      (ImportMultiarrayAPI b env s).2.err = some (endianError b env p)) ∧
    ((ImportMultiarrayAPI b env s).1 = 0 →
      (ImportMultiarrayAPI b env s).2.EIGENPY_ARRAY_APIPyArray_RUNTIME_VERSION =
        ((toUInt32 (env.PyArray_GetNDArrayCFeatureVersion p) : Nat) : Int)) := by
  rw [ImportMultiarrayAPI_capsule b env s m p hs hm hc hp]
  generalize ht : ({ (ImportNumpyModule env s).2 with EIGENPY_ARRAY_API := p } : State) = t
  have hpt : t.EIGENPY_ARRAY_API = p := by rw [← ht]
  rw [← hpt]
  by_cases h1 : pointerWidthFails b env t.EIGENPY_ARRAY_API
  · rw [checkCompatibility_width b env t h1]
    simp [h1, raise_err]
  · by_cases h2 : abiFails b env t.EIGENPY_ARRAY_API
    · rw [checkCompatibility_abi b env t h1 h2]
      simp [h1, h2, raise_err]
    · by_cases h3 : featureFails b env t.EIGENPY_ARRAY_API
      · rw [checkCompatibility_feature b env t h1 h2 h3]
        simp [h1, h2, h3, raise_err]
      · rw [checkCompatibility_endian b env t h1 h2 h3]
        by_cases h4 : endianFails b env t.EIGENPY_ARRAY_API
        · have hE := checkEndianness_fails b env
            { t with EIGENPY_ARRAY_APIPyArray_RUNTIME_VERSION :=
                       runtimeFeatureVersion env t.EIGENPY_ARRAY_API } hbo h4
          rw [hE]
          simp [h1, h2, h3, h4, raise_err]
        · have hE := checkEndianness_passes b env
            { t with EIGENPY_ARRAY_APIPyArray_RUNTIME_VERSION :=
                       runtimeFeatureVersion env t.EIGENPY_ARRAY_API } h4
          rw [hE]
          simp only [h1, h2, h3, h4, not_false_eq_true, and_self, true_iff, false_imp_iff,
            true_imp_iff, imp_false, not_true_eq_false, and_true, true_and]
          unfold featureFails at h3
          apply toInt32_of_nonneg
          have := Int.ofNat_nonneg b.NPY_FEATURE_VERSION
          unfold runtimeFeatureVersion at h3
          omega

/-- C10 (the code at the failing input): a build against NumPy 2 headers with
`sizeof(Py_ssize_t)` different from `sizeof(Py_intptr_t)`, on a NumPy 1 runtime (ABI
version `0x01000009`, below the NumPy 2.0 version `0x02000000`).  Check (1) as worded
holds, yet the comparison of line 76 against `NPY_2_0_API_VERSION` (`0x12`) does not
fire, and `ImportMultiarrayAPI` called with the pointer unset returns `0` with no
error set. -/
theorem pointer_width_check_misses_numpy1 :
    State.initial.EIGENPY_ARRAY_API = 0 ∧
    (ImportNumpyModule numpy1Env State.initial).1 = some numpyModule ∧
    numpyModule.getattr "_ARRAY_API" = .ok (.capsule 4096) ∧
    oddWidthBuild.sizeof_Py_ssize_t ≠ oddWidthBuild.sizeof_Py_intptr_t ∧
    toUInt32 (numpy1Env.PyArray_GetNDArrayCVersion 4096) = 0x01000009 ∧
    pointerWidthUnsupported oddWidthBuild numpy1Env 4096 ∧
    ¬ pointerWidthFails oddWidthBuild numpy1Env 4096 ∧
    (ImportMultiarrayAPI oddWidthBuild numpy1Env State.initial).1 = 0 ∧
    (ImportMultiarrayAPI oddWidthBuild numpy1Env State.initial).2.err = none :=
  ⟨rfl, rfl, rfl, by decide, by decide, by decide, by decide, by decide, by decide⟩

end NumpyImport
